import Mathlib

/-!
Verification of the content-recommendation pipeline
(orchestrator + metrics analyzer), shallowly embedded from the Python
source (`orchestrator.py`, `agents/metrics_analyzer.py`,
`agents/llm_recommender.py`).

Part 1: the Analysis Engine's per-item metrics
(`MetricsAnalyzer._ensure_metrics_columns`,
`MetricsAnalyzer._get_best_performing_video`,
`MetricsAnalyzer._get_worst_performing_video`,
`MetricsAnalyzer._compare_with_competitors`), modelled over item rows
whose `views`, `likes` and `comments_count` columns are present and
nonnegative (hence natural numbers).

Part 2: the Pipeline Orchestrator (`AutonomousPipeline.run`) as a state
machine over the shared state record, with external collaborators as an
opaque environment and an event trace recording which collaborators run.
-/

namespace YTPipe

/-- One item row of the channel DataFrame, restricted to the three counter
columns the analyzed claims assume present and nonnegative. -/
structure Item where
  views : ℕ
  likes : ℕ
  comments : ℕ
  deriving Repr, DecidableEq

/-- `(df['likes'] + df['comments_count']) / df['views'].replace(0, 1)`
(metrics_analyzer.py line 39 for the channel frame, line 363 for a
competitor frame: both use this same expression). -/
def engagementRate (likes comments views : ℕ) : ℚ :=
  ((likes : ℚ) + comments) / (if views = 0 then 1 else (views : ℚ))

/-- Engagement rate of an item row. -/
def Item.er (it : Item) : ℚ := engagementRate it.likes it.comments it.views

/-- `(comp_df['likes'] + comp_df['comments_count']) / comp_df['views'].replace(0, 1)`
as computed for each comparison channel's frame in
`MetricsAnalyzer._compare_with_competitors` (metrics_analyzer.py line 363). -/
def compEngagementRate (likes comments views : ℕ) : ℚ :=
  ((likes : ℚ) + comments) / (if views = 0 then 1 else (views : ℚ))

/-- `df[c].max()` for a numeric column: pandas max over the rows (the empty
case is irrelevant to the claims; 0 is used). -/
def colMax (l : List ℕ) : ℕ := l.foldl Nat.max 0

/-- `df['views'].max() if df['views'].max() > 0 else 1`
(metrics_analyzer.py lines 126-128, one per counter column). -/
def safeMax (l : List ℕ) : ℕ := if colMax l > 0 then colMax l else 1

/-- The composite performance score of row `it` within frame `items`
(metrics_analyzer.py lines 130-134):
`views/viewsMax*0.4 + likes/likesMax*0.3 + comments/commentsMax*0.3`. -/
def performanceScore (items : List Item) (it : Item) : ℚ :=
  let vm := safeMax (items.map Item.views)
  let lm := safeMax (items.map Item.likes)
  let cm := safeMax (items.map Item.comments)
  (it.views : ℚ) / vm * (4/10) + (it.likes : ℚ) / lm * (3/10)
    + (it.comments : ℚ) / cm * (3/10)

/-- Row score at positional index `i` (0 for an out-of-range index,
which never arises for the claims' non-empty frames). -/
def scoreAt (items : List Item) (i : ℕ) : ℚ :=
  match items.get? i with
  | some it => performanceScore items it
  | none => 0

/-- First index in `0..n` (inclusive) attaining the maximum of `f`—the
semantics of pandas `Series.idxmax` on a default integer index, which
returns the first occurrence of the maximum. -/
def idxmaxUpTo (f : ℕ → ℚ) : ℕ → ℕ
  | 0 => 0
  | n + 1 => if f (n + 1) > f (idxmaxUpTo f n) then n + 1 else idxmaxUpTo f n

/-- `df['performance_score'].idxmax()`
(metrics_analyzer.py line 136) over a non-empty frame of `n` rows. -/
def bestIdx (items : List Item) : ℕ :=
  idxmaxUpTo (scoreAt items) (items.length - 1)

/-- First element of list `l` of indices minimizing `f`: the semantics of
pandas `Series.idxmin` restricted to the (order-preserving) filtered
frame. Returns 0 on the empty list (never consulted there). -/
def idxminL (f : ℕ → ℚ) : List ℕ → ℕ
  | [] => 0
  | i :: rest => rest.foldl (fun b j => if f j < f b then j else b) i

/-- Insertion of a value into an ascending-sorted list. -/
def insSorted (x : ℕ) : List ℕ → List ℕ
  | [] => [x]
  | y :: ys => if x ≤ y then x :: y :: ys else y :: insSorted x ys

/-- Ascending insertion sort, used to express the pandas quantile. -/
def sortAsc (l : List ℕ) : List ℕ := l.foldr insSorted []

/-- `df['views'].quantile(0.1)` with pandas' default linear
interpolation: with the rows sorted ascending as `s` and
`h = 0.1 * (n - 1)`, the value is `s[⌊h⌋] + (h - ⌊h⌋) * (s[⌊h⌋+1] - s[⌊h⌋])`
(metrics_analyzer.py lines 161-162). -/
def quantile10 (l : List ℕ) : ℚ :=
  let s := sortAsc l
  let n := s.length
  if n = 0 then 0
  else
    let h : ℚ := ((n : ℚ) - 1) / 10
    let j : ℕ := ⌊h⌋.toNat
    let a : ℚ := (s.getD j 0 : ℕ)
    let b : ℚ := (s.getD (j + 1) (s.getD j 0) : ℕ)
    a + (h - (j : ℚ)) * (b - a)

/-- Engagement rate at positional index `i` of the frame. -/
def erAt (items : List Item) (i : ℕ) : ℚ :=
  match items.get? i with
  | some it => it.er
  | none => 0

/-- Views at positional index `i` of the frame. -/
def viewsAt (items : List Item) (i : ℕ) : ℕ :=
  match items.get? i with
  | some it => it.views
  | none => 0

/-- `df[df['views'] > df['views'].quantile(0.1)]` (metrics_analyzer.py
line 162), as the list of positional row indices whose views strictly
exceed the 10th percentile of the views column. -/
def viewsPool (items : List Item) : List ℕ :=
  (List.range items.length).filter
    (fun i => (viewsAt items i : ℚ) > quantile10 (items.map Item.views))

/-- `MetricsAnalyzer._get_worst_performing_video` (lines 158-171) on a
non-empty frame with `views` and `engagement_rate` present: if the 10th
percentile of views is positive, restrict to rows with views strictly
above it when any exist, and take the first minimum-engagement row;
otherwise take the first global minimum-engagement row. -/
def worstIdx (items : List Item) : ℕ :=
  let q := quantile10 (items.map Item.views)
  let allIdx := List.range items.length
  if 0 < q then
    if viewsPool items ≠ [] then idxminL (erAt items) (viewsPool items)
    else idxminL (erAt items) allIdx
  else idxminL (erAt items) allIdx

/-- Modelled from the spec: worst item per the spec's words — "candidate
pool = items with views above the 10th percentile of the view
distribution; if that pool is non-empty, pick the minimum-engagementRate
item from it; otherwise fall back to the global minimum-engagementRate
item across all items" (no positivity condition on the percentile). -/
def worstIdxSpec (items : List Item) : ℕ :=
  if viewsPool items ≠ [] then idxminL (erAt items) (viewsPool items)
  else idxminL (erAt items) (List.range items.length)

/-! ### Helper lemmas about the fold-based maxima/minima -/

theorem le_foldl_max (l : List ℕ) (a : ℕ) : a ≤ l.foldl Nat.max a := by
  induction l generalizing a with
  | nil => exact le_refl a
  | cons x xs ih => exact le_trans (Nat.le_max_left a x) (ih (Nat.max a x))

theorem mem_le_foldl_max (l : List ℕ) (a x : ℕ) (hx : x ∈ l) :
    x ≤ l.foldl Nat.max a := by
  induction l generalizing a with
  | nil => cases hx
  | cons y ys ih =>
      rcases List.mem_cons.mp hx with h | h
      · subst h
        exact le_trans (Nat.le_max_right a x) (le_foldl_max ys (Nat.max a x))
      · exact ih (Nat.max a y) h

theorem mem_le_colMax (l : List ℕ) (x : ℕ) (hx : x ∈ l) : x ≤ colMax l :=
  mem_le_foldl_max l 0 x hx

theorem safeMax_pos (l : List ℕ) : 0 < safeMax l := by
  unfold safeMax
  split
  · assumption
  · exact Nat.one_pos

/-- A member of the column, divided by its safe maximum, lies in `[0,1]`. -/
theorem div_safeMax_nonneg_le_one (l : List ℕ) (x : ℕ) (hx : x ∈ l) :
    0 ≤ (x : ℚ) / safeMax l ∧ (x : ℚ) / safeMax l ≤ 1 := by
  have hpos : (0 : ℚ) < (safeMax l : ℚ) := by
    exact_mod_cast safeMax_pos l
  constructor
  · exact div_nonneg (by positivity) (le_of_lt hpos)
  · rw [div_le_one hpos]
    unfold safeMax
    split
    · exact_mod_cast mem_le_colMax l x hx
    · have h0 : colMax l = 0 := by omega
      have hx0 : x = 0 := by
        have := mem_le_colMax l x hx
        omega
      simp [hx0]

theorem idxmaxUpTo_le (f : ℕ → ℚ) (n : ℕ) : idxmaxUpTo f n ≤ n := by
  induction n with
  | zero => exact le_refl 0
  | succ n ih =>
      simp only [idxmaxUpTo]
      split
      · exact le_refl _
      · exact le_trans ih (Nat.le_succ n)

theorem idxmaxUpTo_is_max (f : ℕ → ℚ) (n : ℕ) :
    ∀ i ≤ n, f i ≤ f (idxmaxUpTo f n) := by
  induction n with
  | zero =>
      intro i hi
      interval_cases i
      exact le_refl _
  | succ n ih =>
      intro i hi
      simp only [idxmaxUpTo]
      split
      · rename_i hgt
        rcases Nat.lt_succ_iff_lt_or_eq.mp (Nat.lt_succ_of_le hi) with h | h
        · exact le_of_lt (lt_of_le_of_lt (ih i (Nat.lt_succ_iff.mp h)) hgt)
        · subst h; exact le_refl _
      · rename_i hng
        rcases Nat.lt_succ_iff_lt_or_eq.mp (Nat.lt_succ_of_le hi) with h | h
        · exact ih i (Nat.lt_succ_iff.mp h)
        · subst h; exact le_of_not_lt hng

theorem idxmaxUpTo_first (f : ℕ → ℚ) (n : ℕ) :
    ∀ i < idxmaxUpTo f n, f i < f (idxmaxUpTo f n) := by
  induction n with
  | zero =>
      intro i hi
      simp [idxmaxUpTo] at hi
  | succ n ih =>
      intro i hi
      simp only [idxmaxUpTo] at hi ⊢
      split
      · rename_i hgt
        have hle : i ≤ n := by
          have := idxmaxUpTo_le f n
          rw [if_pos hgt] at hi
          omega
        exact lt_of_le_of_lt (idxmaxUpTo_is_max f n i hle) hgt
      · rename_i hng
        rw [if_neg hng] at hi
        exact ih i hi

theorem idxminL_foldl_spec (f : ℕ → ℚ) (l : List ℕ) (b : ℕ) :
    (l.foldl (fun b j => if f j < f b then j else b) b = b
      ∨ l.foldl (fun b j => if f j < f b then j else b) b ∈ l)
    ∧ f (l.foldl (fun b j => if f j < f b then j else b) b) ≤ f b
    ∧ ∀ j ∈ l, f (l.foldl (fun b j => if f j < f b then j else b) b) ≤ f j := by
  induction l generalizing b with
  | nil => exact ⟨Or.inl rfl, le_refl _, by intro j hj; cases hj⟩
  | cons x xs ih =>
      simp only [List.foldl_cons]
      by_cases hx : f x < f b
      · simp only [if_pos hx]
        rcases ih x with ⟨hmem, hle, hall⟩
        refine ⟨?_, le_trans hle (le_of_lt hx), ?_⟩
        · rcases hmem with h | h
          · exact Or.inr (by rw [h]; exact List.mem_cons_self x xs)
          · exact Or.inr (List.mem_cons_of_mem x h)
        · intro j hj
          rcases List.mem_cons.mp hj with h | h
          · subst h; exact hle
          · exact hall j h
      · simp only [if_neg hx]
        rcases ih b with ⟨hmem, hle, hall⟩
        refine ⟨?_, hle, ?_⟩
        · rcases hmem with h | h
          · exact Or.inl h
          · exact Or.inr (List.mem_cons_of_mem x h)
        · intro j hj
          rcases List.mem_cons.mp hj with h | h
          · subst h; exact le_trans hle (le_of_not_lt hx)
          · exact hall j h

theorem idxminL_mem (f : ℕ → ℚ) (l : List ℕ) (hl : l ≠ []) :
    idxminL f l ∈ l := by
  cases l with
  | nil => exact absurd rfl hl
  | cons i rest =>
      rcases idxminL_foldl_spec f rest i with ⟨hmem, -, -⟩
      show rest.foldl (fun b j => if f j < f b then j else b) i ∈ i :: rest
      rcases hmem with h | h
      · rw [h]; exact List.mem_cons_self i rest
      · exact List.mem_cons_of_mem i h

theorem idxminL_is_min (f : ℕ → ℚ) (l : List ℕ) :
    ∀ j ∈ l, f (idxminL f l) ≤ f j := by
  cases l with
  | nil => intro j hj; cases hj
  | cons i rest =>
      intro j hj
      rcases idxminL_foldl_spec f rest i with ⟨-, hle, hall⟩
      show f (rest.foldl (fun b j => if f j < f b then j else b) i) ≤ f j
      rcases List.mem_cons.mp hj with h | h
      · subst h; exact hle
      · exact hall j h

/-! ### Normalized dimensions of the composite score -/

/-- Likes at positional index `i` of the frame. -/
def likesAt (items : List Item) (i : ℕ) : ℕ :=
  match items.get? i with
  | some it => it.likes
  | none => 0

/-- Comments at positional index `i` of the frame. -/
def commentsAt (items : List Item) (i : ℕ) : ℕ :=
  match items.get? i with
  | some it => it.comments
  | none => 0

/-- Views of row `i` normalized by the safe column maximum. -/
def normViews (items : List Item) (i : ℕ) : ℚ :=
  (viewsAt items i : ℚ) / safeMax (items.map Item.views)

/-- Likes of row `i` normalized by the safe column maximum. -/
def normLikes (items : List Item) (i : ℕ) : ℚ :=
  (likesAt items i : ℚ) / safeMax (items.map Item.likes)

/-- Comments of row `i` normalized by the safe column maximum. -/
def normComments (items : List Item) (i : ℕ) : ℚ :=
  (commentsAt items i : ℚ) / safeMax (items.map Item.comments)

theorem scoreAt_eq_norms (items : List Item) (i : ℕ) (hi : i < items.length) :
    scoreAt items i =
      normViews items i * (4/10) + normLikes items i * (3/10)
        + normComments items i * (3/10) := by
  have h : items[i]? = some items[i] := List.getElem?_eq_getElem hi
  simp [scoreAt, viewsAt, likesAt, commentsAt, performanceScore,
    normViews, normLikes, normComments, h]

theorem viewsAt_mem (items : List Item) (i : ℕ) (hi : i < items.length) :
    viewsAt items i ∈ items.map Item.views := by
  have h : items[i]? = some items[i] := List.getElem?_eq_getElem hi
  simp only [viewsAt, List.get?_eq_getElem?, h]
  exact List.mem_map_of_mem Item.views (items.getElem_mem hi)

theorem likesAt_mem (items : List Item) (i : ℕ) (hi : i < items.length) :
    likesAt items i ∈ items.map Item.likes := by
  have h : items[i]? = some items[i] := List.getElem?_eq_getElem hi
  simp only [likesAt, List.get?_eq_getElem?, h]
  exact List.mem_map_of_mem Item.likes (items.getElem_mem hi)

theorem commentsAt_mem (items : List Item) (i : ℕ) (hi : i < items.length) :
    commentsAt items i ∈ items.map Item.comments := by
  have h : items[i]? = some items[i] := List.getElem?_eq_getElem hi
  simp only [commentsAt, List.get?_eq_getElem?, h]
  exact List.mem_map_of_mem Item.comments (items.getElem_mem hi)

theorem scoreAt_bounds (items : List Item) (i : ℕ) (hi : i < items.length) :
    0 ≤ scoreAt items i ∧ scoreAt items i ≤ 1 := by
  rw [scoreAt_eq_norms items i hi]
  rcases div_safeMax_nonneg_le_one (items.map Item.views) _ (viewsAt_mem items i hi)
    with ⟨hv0, hv1⟩
  rcases div_safeMax_nonneg_le_one (items.map Item.likes) _ (likesAt_mem items i hi)
    with ⟨hl0, hl1⟩
  rcases div_safeMax_nonneg_le_one (items.map Item.comments) _ (commentsAt_mem items i hi)
    with ⟨hc0, hc1⟩
  unfold normViews normLikes normComments
  constructor <;> nlinarith

/-! ### Concrete frames used by the concrete-example claims -/

/-- The 3-item frame of the spec's concrete example:
views = [100, 50, 10], likes = [10, 5, 1], comments = [2, 1, 0]. -/
def demoItems : List Item := [⟨100, 10, 2⟩, ⟨50, 5, 1⟩, ⟨10, 1, 0⟩]

/-- A frame whose views column has a zero 10th percentile while some rows
still have positive views: views = [0, 0, 10]. -/
def worstDemoItems : List Item := [⟨0, 0, 0⟩, ⟨0, 0, 0⟩, ⟨10, 1, 0⟩]

theorem replaceZero_eq_max (v : ℕ) :
    (if v = 0 then 1 else (v : ℚ)) = max (v : ℚ) 1 := by
  by_cases h : v = 0
  · subst h; simp
  · rw [if_neg h]
    have h1 : (1 : ℚ) ≤ (v : ℚ) := by
      exact_mod_cast Nat.one_le_iff_ne_zero.mpr h
    rw [max_eq_left h1]

/-! ### Claim theorems for the Analysis Engine -/

/-- C5: for every item set with views, likes and comments present and
nonnegative, the derived engagement rate of each item equals
`(likes + comments) / max(views, 1)` and is nonnegative — both for the
subject channel's items (column built by `_ensure_metrics_columns`) and
for each comparison channel's items (column built in
`_compare_with_competitors`). -/
theorem C5_engagement_rate_invariant (items compItems : List Item) :
    (∀ it ∈ items,
        it.er = ((it.likes : ℚ) + it.comments) / max (it.views : ℚ) 1
        ∧ 0 ≤ it.er)
    ∧ (∀ it ∈ compItems,
        compEngagementRate it.likes it.comments it.views
          = ((it.likes : ℚ) + it.comments) / max (it.views : ℚ) 1
        ∧ 0 ≤ compEngagementRate it.likes it.comments it.views) := by
  have key : ∀ it : Item,
      engagementRate it.likes it.comments it.views
        = ((it.likes : ℚ) + it.comments) / max (it.views : ℚ) 1
      ∧ 0 ≤ engagementRate it.likes it.comments it.views := by
    intro it
    constructor
    · unfold engagementRate
      rw [replaceZero_eq_max]
    · unfold engagementRate
      apply div_nonneg
      · positivity
      · split
        · norm_num
        · positivity
  exact ⟨fun it _ => key it, fun it _ => key it⟩

/-- Closed instance of C5 at the first row of the demo frame. -/
theorem C5_engagement_rate_invariant_witness :
    (Item.er ⟨100, 10, 2⟩
        = ((Item.likes ⟨100, 10, 2⟩ : ℚ) + Item.comments ⟨100, 10, 2⟩)
            / max (Item.views ⟨100, 10, 2⟩ : ℚ) 1
      ∧ 0 ≤ Item.er ⟨100, 10, 2⟩) :=
  (C5_engagement_rate_invariant [⟨100, 10, 2⟩] []).1 ⟨100, 10, 2⟩
    (List.mem_singleton.mpr rfl)

/-- C6: on a non-empty frame with the three counter columns, every
composite score lies in `[0,1]`; the best row index is in range, attains
the maximum score, is the first index attaining it (ties broken by input
order), and any row strictly dominating all others in all three
normalized dimensions is selected. -/
theorem C6_best_item_rule (items : List Item) (h : items ≠ []) :
    (∀ i < items.length, 0 ≤ scoreAt items i ∧ scoreAt items i ≤ 1)
    ∧ bestIdx items < items.length
    ∧ (∀ i < items.length, scoreAt items i ≤ scoreAt items (bestIdx items))
    ∧ (∀ i < bestIdx items, scoreAt items i < scoreAt items (bestIdx items))
    ∧ (∀ i < items.length,
        (∀ j < items.length, j ≠ i →
          normViews items j < normViews items i
          ∧ normLikes items j < normLikes items i
          ∧ normComments items j < normComments items i) →
        bestIdx items = i) := by
  have hn : 0 < items.length := List.length_pos.mpr h
  have hb_le : bestIdx items ≤ items.length - 1 := idxmaxUpTo_le _ _
  have hb_lt : bestIdx items < items.length := by omega
  refine ⟨fun i hi => scoreAt_bounds items i hi, hb_lt, ?_, ?_, ?_⟩
  · intro i hi
    exact idxmaxUpTo_is_max (scoreAt items) (items.length - 1) i (by omega)
  · intro i hi
    exact idxmaxUpTo_first (scoreAt items) (items.length - 1) i hi
  · intro i hi hdom
    by_contra hne
    rcases hdom (bestIdx items) hb_lt hne with ⟨hv, hl, hc⟩
    have hlt : scoreAt items (bestIdx items) < scoreAt items i := by
      rw [scoreAt_eq_norms items (bestIdx items) hb_lt, scoreAt_eq_norms items i hi]
      linarith
    have hge : scoreAt items i ≤ scoreAt items (bestIdx items) :=
      idxmaxUpTo_is_max (scoreAt items) (items.length - 1) i (by omega)
    linarith

/-- Closed instance of C6 at the demo frame. -/
theorem C6_best_item_rule_witness :
    (∀ i < demoItems.length, 0 ≤ scoreAt demoItems i ∧ scoreAt demoItems i ≤ 1)
    ∧ bestIdx demoItems < demoItems.length
    ∧ (∀ i < demoItems.length,
        scoreAt demoItems i ≤ scoreAt demoItems (bestIdx demoItems))
    ∧ (∀ i < bestIdx demoItems,
        scoreAt demoItems i < scoreAt demoItems (bestIdx demoItems))
    ∧ (∀ i < demoItems.length,
        (∀ j < demoItems.length, j ≠ i →
          normViews demoItems j < normViews demoItems i
          ∧ normLikes demoItems j < normLikes demoItems i
          ∧ normComments demoItems j < normComments demoItems i) →
        bestIdx demoItems = i) :=
  C6_best_item_rule demoItems (by decide)

/-- C7 counterexample: on views = [0, 0, 10] the candidate pool (views
strictly above the 10th percentile) is non-empty, yet the code selects
row 0 — outside the pool — while the spec's rule selects row 2. -/
theorem C7_counterexample :
    viewsPool worstDemoItems ≠ []
    ∧ worstIdx worstDemoItems = 0
    ∧ worstIdxSpec worstDemoItems = 2
    ∧ worstIdx worstDemoItems ≠ worstIdxSpec worstDemoItems := by
  norm_num [worstIdx, worstIdxSpec, worstDemoItems, quantile10, sortAsc, insSorted,
    viewsPool, viewsAt, idxminL, erAt, Item.er, engagementRate,
    List.range, List.range.loop, List.filter, List.foldl]

/-- C7 amended: the candidate pool is only used when, additionally, the
10th percentile of views is strictly positive; then the worst row is a
minimum-engagement row of the pool. Otherwise (zero percentile, or empty
pool) the worst row is a global minimum-engagement row. -/
theorem C7_worst_item_rule_amended (items : List Item) (h : items ≠ []) :
    (0 < quantile10 (items.map Item.views) → viewsPool items ≠ [] →
      worstIdx items ∈ viewsPool items
      ∧ ∀ j ∈ viewsPool items, erAt items (worstIdx items) ≤ erAt items j)
    ∧ ((¬ 0 < quantile10 (items.map Item.views) ∨ viewsPool items = []) →
      worstIdx items < items.length
      ∧ ∀ j < items.length, erAt items (worstIdx items) ≤ erAt items j) := by
  have hn : 0 < items.length := List.length_pos.mpr h
  have hrange : (List.range items.length) ≠ [] := by
    intro hcon
    have := List.length_range items.length
    rw [hcon] at this
    simp at this
    omega
  constructor
  · intro hq hpool
    unfold worstIdx
    rw [if_pos hq, if_pos hpool]
    exact ⟨idxminL_mem (erAt items) (viewsPool items) hpool,
      idxminL_is_min (erAt items) (viewsPool items)⟩
  · intro hcase
    have hglobal :
        idxminL (erAt items) (List.range items.length) < items.length
        ∧ ∀ j < items.length,
            erAt items (idxminL (erAt items) (List.range items.length))
              ≤ erAt items j := by
      constructor
      · exact List.mem_range.mp
          (idxminL_mem (erAt items) (List.range items.length) hrange)
      · intro j hj
        exact idxminL_is_min (erAt items) (List.range items.length) j
          (List.mem_range.mpr hj)
    unfold worstIdx
    rcases hcase with hq | hpool
    · rw [if_neg hq]
      exact hglobal
    · by_cases hq : 0 < quantile10 (items.map Item.views)
      · rw [if_pos hq, if_neg (by simp [hpool])]
        exact hglobal
      · rw [if_neg hq]
        exact hglobal

/-- Closed instance of C7 (amended) at the frame views = [0, 0, 10],
where the zero-percentile branch applies. -/
theorem C7_worst_item_rule_amended_witness :
    worstIdx worstDemoItems < worstDemoItems.length
    ∧ ∀ j < worstDemoItems.length,
        erAt worstDemoItems (worstIdx worstDemoItems) ≤ erAt worstDemoItems j :=
  (C7_worst_item_rule_amended worstDemoItems (by decide)).2 (Or.inl (by
    norm_num [worstDemoItems, quantile10, sortAsc, insSorted]))

/-- C8 counterexample: in the spec's 3-item example the composite scores
of items 0 and 1 are 1 and 1/2 — they do not tie. -/
theorem C8_counterexample :
    scoreAt demoItems 0 = 1 ∧ scoreAt demoItems 1 = 1/2
    ∧ scoreAt demoItems 0 ≠ scoreAt demoItems 1 := by
  norm_num [demoItems, scoreAt, performanceScore, safeMax, colMax, List.foldl]

/-- C8 amended: the engagement rates are [0.12, 0.12, 0.10] as claimed
(items 0 and 1 tie on engagement rate), but the composite scores are
[1, 1/2, 7/100]; the best item is index 0 because its composite score is
strictly the largest, not by tie-break. -/
theorem C8_concrete_example_amended :
    demoItems.map Item.er = [12/100, 12/100, 1/10]
    ∧ scoreAt demoItems 0 = 1
    ∧ scoreAt demoItems 1 = 1/2
    ∧ scoreAt demoItems 2 = 7/100
    ∧ erAt demoItems 0 = erAt demoItems 1
    ∧ bestIdx demoItems = 0 := by
  norm_num [demoItems, Item.er, engagementRate, scoreAt, performanceScore,
    safeMax, colMax, erAt, bestIdx, idxmaxUpTo, List.foldl]

/-! ## Part 2: the Pipeline Orchestrator (`AutonomousPipeline.run`)

The shared state record (`state_tracker`), the per-run results dict
(`self.results`) and the control flow of `run` are embedded directly.
External collaborators (data fetcher, competitor finder, analyzer,
recommendation oracle, formatter, renderer, file writes) are an opaque
environment whose calls either return a value or raise; every collaborator
call appends an event to a trace. An uncaught exception reaches the
top-level handler of `run`, which sets the phase to `Error` with the
message and returns `None`. -/

/-- One collaborator invocation (the observable effect of a stage). -/
inductive Ev where
  | fetchData
  | fetchStats
  | findCompetitors
  | fetchCompVideos
  | analyze
  | genRecs
  | saveRecs
  | genScript
  | saveScript
  | formatScript
  | render
  deriving Repr, DecidableEq

/-- The `LLMRecommender` object stored in
`state_tracker["recommendation_object"]`: its `recommendation` attribute
is `None` until `generate_recommendation` succeeds
(llm_recommender.py lines 7-24). -/
structure RecObj where
  recommendation : Option (List ℕ)
  deriving Repr, DecidableEq

/-- The shared state record (`state_tracker`): the fields
`AutonomousPipeline.run` reads or writes. An analysis result and a
script are opaque tokens (`ℕ`); a recommendation list is a list of
opaque recommendation tokens. -/
structure PState where
  status : String := "Idle"
  details : String := ""
  analysis_results : Option ℕ := none
  recommendation_object : Option RecObj := none
  recommendations : Option (List ℕ) := none
  recommendations_saved : Bool := false
  video_path : Option String := none
  last_run : Option String := none
  deriving Repr, DecidableEq

/-- The per-run `self.results` dict. -/
structure Results where
  analysis : Option ℕ := none
  recommendations : Option (List ℕ) := none
  script : Option ℕ := none
  formatted_script : Option ℕ := none
  video_path : Option String := none
  deriving Repr, DecidableEq

/-- The opaque external collaborators: each call returns a value or
raises a message. `fetchVideos` yields `none` for an absent frame
(`fetch_channel_data` returned `None`) or `some n` for a frame of `n`
rows. -/
structure Env where
  fetchVideos : Except String (Option ℕ)
  fetchStats : Except String Unit
  findCompetitors : Except String Unit
  fetchCompVideos : Except String Unit
  analyzeMetrics : Except String ℕ
  genRecs : ℕ → Except String (List ℕ)
  saveRec : Except String Unit
  genScript : ℕ → Except String ℕ
  saveScript : Except String Unit
  formatScript : ℕ → Except String ℕ
  render : ℕ → Except String String
  now : String

/-- A finished invocation of `run`: final shared state, the trace of
collaborator calls, the return value (`self.results` or `None`), and the
content of `self.results` at exit. -/
structure Outcome where
  state : PState
  trace : List Ev
  retval : Option Results
  results : Results
  deriving Repr, DecidableEq

/-- `AutonomousPipeline._update_ui` with both arguments present. -/
def setUI (st : PState) (status details : String) : PState :=
  { st with status := status, details := details }

/-- The top-level `except Exception` handler (orchestrator.py lines
174-177): set phase `Error`, capture the message, return `None`. State
and results mutations made before the raise persist. -/
def errOut (st : PState) (tr : List Ev) (res : Results) (msg : String) : Outcome :=
  { state := { st with status := "Error", details := "Pipeline failed: " ++ msg },
    trace := tr, retval := none, results := res }

/-- Lines 120-172 of orchestrator.py: the stop-or-generate tail after the
recommendation-save guard, given the recommender object `ro` and the
recommendation list `recs` in scope. -/
def runTail (env : Env) (st : PState) (tr : List Ev) (res : Results)
    (ro : RecObj) (recs : List ℕ) (generateVideo : Bool)
    (selectedIndex : Option ℕ) : Outcome :=
  let res := { res with recommendations := some recs }
  match selectedIndex with
  | none =>
      -- lines 121-127: no option selected
      let st := setUI st "Waiting"
        "Analysis complete. Please select a recommended video to generate."
      let res := { res with script := none, video_path := none }
      -- line 133: script is None, so no formatting
      let res := { res with formatted_script := none }
      -- lines 142/152-154: `self.results.get("script")` is falsy
      let st := { st with details := "Skipping video generation..." }
      let res := { res with video_path := none }
      -- lines 163-167: stay in Waiting
      let st := setUI st "Waiting" "Select a recommendation to generate video."
      -- lines 169-171
      let st := { st with last_run := some env.now }
      { state := st, trace := tr, retval := none, results := res }
  | some i =>
      -- lines 128-131: generate and persist the script
      match ro.recommendation with
      | none => errOut st tr res "Recommendation must be generated first"
      | some rlist =>
          match rlist.get? i with
          | none =>
              -- IndexError from `self.recommendation[index]` before the
              -- oracle call (llm_recommender.py line 32)
              errOut st tr res "list index out of range"
          | some rec =>
            match env.genScript rec with
            | .error m => errOut st (tr ++ [Ev.genScript]) res m
            | .ok script =>
                match env.saveScript with
                | .error m => errOut st (tr ++ [Ev.genScript, Ev.saveScript]) res m
                | .ok _ =>
                    let res := { res with script := some script }
                    -- lines 133-137: script is not None
                    let st := setUI st "Running"
                      "Step 5/6: Formatting script for production..."
                    match env.formatScript script with
                    | .error m =>
                        errOut st (tr ++ [Ev.genScript, Ev.saveScript, Ev.formatScript])
                          res m
                    | .ok fs =>
                        let res := { res with formatted_script := some fs }
                        let tr := tr ++ [Ev.genScript, Ev.saveScript, Ev.formatScript]
                        -- lines 142-154
                        if generateVideo then
                          let st := setUI st "GeneratingVideo"
                            ("Step 6/6: Rendering video for Option "
                              ++ toString (i + 1) ++ "...")
                          match env.render fs with
                          | .error m => errOut st (tr ++ [Ev.render]) res m
                          | .ok p =>
                              let res := { res with video_path := some p }
                              let st := { st with video_path := some p }
                              let st := setUI st "Completed"
                                ("Pipeline finished at " ++ env.now)
                              -- line 161: `_print_summary` indexes
                              -- `self.results['recommendations'][i]` when non-empty
                              if recs ≠ [] ∧ recs.length ≤ i then
                                errOut st (tr ++ [Ev.render]) res "list index out of range"
                              else
                                { state := st, trace := tr ++ [Ev.render],
                                  retval := some res, results := res }
                        else
                          let st := { st with details := "Skipping video generation..." }
                          let res := { res with video_path := none }
                          let st := setUI st "Completed"
                            ("Pipeline finished at " ++ env.now)
                          if recs ≠ [] ∧ recs.length ≤ i then
                            errOut st tr res "list index out of range"
                          else
                            { state := st, trace := tr, retval := some res,
                              results := res }

/-- Lines 115-118 of orchestrator.py: save the recommendation only when
the idempotent `recommendations_saved` guard is unset;
`_save_recommendation` itself raises when the recommender holds no
recommendation (llm_recommender.py lines 37-48). -/
def runSaveGuard (env : Env) (st : PState) (tr : List Ev) (res : Results)
    (ro : RecObj) (recs : List ℕ) (generateVideo : Bool)
    (selectedIndex : Option ℕ) : Outcome :=
  if st.recommendations_saved then
    runTail env st tr res ro recs generateVideo selectedIndex
  else
    match ro.recommendation with
    | none => errOut st tr res "Recommendation must be generated first"
    | some _ =>
        match env.saveRec with
        | .error m => errOut st (tr ++ [Ev.saveRecs]) res m
        | .ok _ =>
            let st := { st with recommendations_saved := true }
            runTail env st (tr ++ [Ev.saveRecs]) res ro recs generateVideo
              selectedIndex

/-- Lines 92-118 of orchestrator.py, entered once `analysis_results` is
in scope (cached or fresh): Step 4 generates recommendations only on a
run without a selection index; with a selection the stored recommender
object and cached recommendations are reused (KeyError if absent). -/
def runFromAnalysis (env : Env) (st : PState) (tr : List Ev) (analysis : ℕ)
    (generateVideo : Bool) (selectedIndex : Option ℕ) : Outcome :=
  let res : Results := { analysis := some analysis }
  let st := setUI st "Running" "Step 4/6: LLM Agents generating strategy..."
  match selectedIndex with
  | none =>
      -- lines 101-110: fresh generation; the recommender object is
      -- stored in the shared state before the oracle call
      let st := { st with recommendation_object := some ⟨none⟩ }
      match env.genRecs analysis with
      | .error m => errOut st (tr ++ [Ev.genRecs]) res m
      | .ok recs =>
          let ro : RecObj := ⟨some recs⟩
          let st := { st with recommendation_object := some ro,
                              recommendations := some recs,
                              recommendations_saved := false }
          let st := setUI st "Waiting"
            "Recommendations ready. Select a video to generate."
          runSaveGuard env st (tr ++ [Ev.genRecs]) res ro recs generateVideo none
  | some i =>
      -- lines 111-113: reuse; `state_tracker[...]` raises KeyError when missing
      match st.recommendation_object with
      | none => errOut st tr res "recommendation_object"
      | some ro =>
          match st.recommendations with
          | none => errOut st tr res "recommendations"
          | some recs =>
              runSaveGuard env st tr res ro recs generateVideo (some i)

/-- Lines 36-39 of orchestrator.py: the dynamic-workflow check. -/
def canSkipAnalysis (st : PState) (selectedIndex : Option ℕ) : Bool :=
  st.analysis_results.isSome && selectedIndex.isSome

/-- Lines 44-89 of orchestrator.py: the full path — fetch, empty-check,
competitor discovery, analysis, caching — ending in `runFromAnalysis`. -/
def runFullPath (env : Env) (st : PState) (generateVideo : Bool)
    (selectedIndex : Option ℕ) : Outcome :=
  let st := setUI st "Running" "Step 1/6: Fetching channel statistics..."
  match env.fetchVideos with
  | .error m => errOut st [Ev.fetchData] {} m
  | .ok videos =>
      match env.fetchStats with
      | .error m => errOut st [Ev.fetchData, Ev.fetchStats] {} m
      | .ok _ =>
          match videos with
          | none =>
              { state := setUI st "Failed" "No videos found for this channel.",
                trace := [Ev.fetchData, Ev.fetchStats], retval := none,
                results := {} }
          | some 0 =>
              { state := setUI st "Failed" "No videos found for this channel.",
                trace := [Ev.fetchData, Ev.fetchStats], retval := none,
                results := {} }
          | some (_ + 1) =>
              let st := setUI st "Running" "Step 2/6: Identifying competitor trends..."
              match env.findCompetitors with
              | .error m => errOut st [Ev.fetchData, Ev.fetchStats, Ev.findCompetitors] {} m
              | .ok _ =>
                  match env.fetchCompVideos with
                  | .error m =>
                      errOut st
                        [Ev.fetchData, Ev.fetchStats, Ev.findCompetitors,
                          Ev.fetchCompVideos] {} m
                  | .ok _ =>
                      let st := setUI st "Running"
                        "Step 3/6: Analyzing engagement metrics..."
                      match env.analyzeMetrics with
                      | .error m =>
                          errOut st
                            [Ev.fetchData, Ev.fetchStats, Ev.findCompetitors,
                              Ev.fetchCompVideos, Ev.analyze] {} m
                      | .ok a =>
                          let st := { st with analysis_results := some a }
                          runFromAnalysis env st
                            [Ev.fetchData, Ev.fetchStats, Ev.findCompetitors,
                              Ev.fetchCompVideos, Ev.analyze] a generateVideo
                            selectedIndex

/-- `AutonomousPipeline.run(generate_video, selected_index)`
(orchestrator.py lines 26-177). -/
def runPipeline (env : Env) (st0 : PState) (generateVideo : Bool)
    (selectedIndex : Option ℕ) : Outcome :=
  if canSkipAnalysis st0 selectedIndex then
    match st0.analysis_results with
    | some a =>
        let st := setUI st0 "Running" "Fast-tracking: Using cached analysis data..."
        runFromAnalysis env st [] a generateVideo selectedIndex
    | none => runFullPath env st0 generateVideo selectedIndex
  else runFullPath env st0 generateVideo selectedIndex

/-! ### Structural lemmas on the orchestrator stages -/

/-- `runTail` only appends script/format/render events (in canonical
order), never touches the cached analysis, the per-run analysis field or
the saved-flag. -/
theorem runTail_shape (env : Env) (st : PState) (tr : List Ev) (res : Results)
    (ro : RecObj) (recs : List ℕ) (gv : Bool) (sel : Option ℕ) :
    ∃ ex, (runTail env st tr res ro recs gv sel).trace = tr ++ ex
      ∧ ex.Sublist [Ev.genScript, Ev.saveScript, Ev.formatScript, Ev.render]
      ∧ (runTail env st tr res ro recs gv sel).results.analysis = res.analysis
      ∧ (runTail env st tr res ro recs gv sel).state.analysis_results
          = st.analysis_results
      ∧ (runTail env st tr res ro recs gv sel).state.recommendations_saved
          = st.recommendations_saved := by
  rcases sel with _ | i
  · exact ⟨[], by simp [runTail, setUI]⟩
  · rcases hro : ro.recommendation with _ | rlist
    · exact ⟨[], by simp [runTail, errOut, hro]⟩
    · rcases hr : rlist[i]? with _ | rec
      · exact ⟨[], by simp [runTail, errOut, hro, hr]⟩
      · rcases hgs : env.genScript rec with m | script
        · exact ⟨[Ev.genScript], by simp [runTail, errOut, hro, hr, hgs]⟩
        · rcases hss : env.saveScript with m | u
          · exact ⟨[Ev.genScript, Ev.saveScript],
              by simp [runTail, errOut, hro, hr, hgs, hss]⟩
          · rcases hfs : env.formatScript script with m | fs
            · exact ⟨[Ev.genScript, Ev.saveScript, Ev.formatScript],
                by simp [runTail, errOut, setUI, hro, hr, hgs, hss, hfs]⟩
            · rcases gv with _ | _
              · by_cases hix : recs ≠ [] ∧ recs.length ≤ i
                · exact ⟨[Ev.genScript, Ev.saveScript, Ev.formatScript],
                    by simp [runTail, errOut, setUI, hro, hr, hgs, hss, hfs, hix]⟩
                · exact ⟨[Ev.genScript, Ev.saveScript, Ev.formatScript],
                    by simp [runTail, errOut, setUI, hro, hr, hgs, hss, hfs, hix]⟩
              · rcases hrd : env.render fs with m | p
                · exact ⟨[Ev.genScript, Ev.saveScript, Ev.formatScript, Ev.render],
                    by simp [runTail, errOut, setUI, hro, hr, hgs, hss, hfs, hrd]⟩
                · by_cases hix : recs ≠ [] ∧ recs.length ≤ i
                  · exact ⟨[Ev.genScript, Ev.saveScript, Ev.formatScript, Ev.render],
                      by simp [runTail, errOut, setUI, hro, hr, hgs, hss, hfs, hrd, hix]⟩
                  · exact ⟨[Ev.genScript, Ev.saveScript, Ev.formatScript, Ev.render],
                      by simp [runTail, errOut, setUI, hro, hr, hgs, hss, hfs, hrd, hix]⟩

/-- `runSaveGuard` only appends save/script/format/render events (in
canonical order) and preserves the analysis fields. -/
theorem runSaveGuard_shape (env : Env) (st : PState) (tr : List Ev)
    (res : Results) (ro : RecObj) (recs : List ℕ) (gv : Bool)
    (sel : Option ℕ) :
    ∃ ex, (runSaveGuard env st tr res ro recs gv sel).trace = tr ++ ex
      ∧ ex.Sublist [Ev.saveRecs, Ev.genScript, Ev.saveScript, Ev.formatScript,
          Ev.render]
      ∧ (runSaveGuard env st tr res ro recs gv sel).results.analysis
          = res.analysis
      ∧ (runSaveGuard env st tr res ro recs gv sel).state.analysis_results
          = st.analysis_results := by
  by_cases hs : st.recommendations_saved = true
  · obtain ⟨ex, h1, h2, h3, h4, -⟩ := runTail_shape env st tr res ro recs gv sel
    refine ⟨ex, ?_, h2.cons Ev.saveRecs, ?_, ?_⟩ <;>
      simp [runSaveGuard, hs, h1, h3, h4]
  · rcases hro : ro.recommendation with _ | rl
    · exact ⟨[], by simp [runSaveGuard, hs, hro, errOut]⟩
    · rcases hsv : env.saveRec with m | u
      · exact ⟨[Ev.saveRecs], by simp [runSaveGuard, hs, hro, hsv, errOut]⟩
      · obtain ⟨ex, h1, h2, h3, h4, -⟩ :=
          runTail_shape env { st with recommendations_saved := true }
            (tr ++ [Ev.saveRecs]) res ro recs gv sel
        refine ⟨Ev.saveRecs :: ex, ?_, h2.cons₂ Ev.saveRecs, ?_, ?_⟩ <;>
          simp [runSaveGuard, hs, hro, hsv, h1, h3, h4]

/-- `runFromAnalysis` only appends step-4-onward events, records the
in-scope analysis in `results.analysis` under every outcome, and never
rewrites the cached analysis. -/
theorem runFromAnalysis_shape (env : Env) (st : PState) (tr : List Ev)
    (analysis : ℕ) (gv : Bool) (sel : Option ℕ) :
    ∃ ex, (runFromAnalysis env st tr analysis gv sel).trace = tr ++ ex
      ∧ ex.Sublist [Ev.genRecs, Ev.saveRecs, Ev.genScript, Ev.saveScript,
          Ev.formatScript, Ev.render]
      ∧ (runFromAnalysis env st tr analysis gv sel).results.analysis
          = some analysis
      ∧ (runFromAnalysis env st tr analysis gv sel).state.analysis_results
          = st.analysis_results := by
  rcases sel with _ | i
  · rcases hgr : env.genRecs analysis with m | recs
    · exact ⟨[Ev.genRecs], by simp [runFromAnalysis, setUI, errOut, hgr]⟩
    · obtain ⟨ex, h1, h2, h3, h4⟩ :=
        runSaveGuard_shape env
          (setUI { setUI st "Running" "Step 4/6: LLM Agents generating strategy..." with
              recommendation_object := some ⟨some recs⟩,
              recommendations := some recs,
              recommendations_saved := false }
            "Waiting" "Recommendations ready. Select a video to generate.")
          (tr ++ [Ev.genRecs]) { analysis := some analysis } ⟨some recs⟩ recs gv none
      simp only [setUI] at h1 h3 h4
      refine ⟨Ev.genRecs :: ex, ?_, h2.cons₂ Ev.genRecs, ?_, ?_⟩ <;>
        simp [runFromAnalysis, setUI, hgr, h1, h3, h4]
  · rcases hob : st.recommendation_object with _ | ro
    · exact ⟨[], by simp [runFromAnalysis, setUI, errOut, hob]⟩
    · rcases hrc : st.recommendations with _ | recs
      · exact ⟨[], by simp [runFromAnalysis, setUI, errOut, hob, hrc]⟩
      · obtain ⟨ex, h1, h2, h3, h4⟩ :=
          runSaveGuard_shape env
            (setUI st "Running" "Step 4/6: LLM Agents generating strategy...")
            tr { analysis := some analysis } ro recs gv (some i)
        simp only [setUI, hob, hrc] at h1 h3 h4
        refine ⟨ex, ?_, h2.cons Ev.genRecs, ?_, ?_⟩ <;>
          simp [runFromAnalysis, setUI, hob, hrc, h1, h3, h4]

/-- The caught-exception discipline of an outcome: whenever the phase is
`Error`, the detail carries the handler's message and the run returned
`None`. -/
def ErrorForm (o : Outcome) : Prop :=
  o.state.status = "Error" →
    (∃ m, o.state.details = "Pipeline failed: " ++ m) ∧ o.retval = none

theorem errorForm_errOut (st : PState) (tr : List Ev) (res : Results)
    (m : String) : ErrorForm (errOut st tr res m) :=
  fun _ => ⟨⟨m, rfl⟩, rfl⟩

theorem runTail_errorForm (env : Env) (st : PState) (tr : List Ev)
    (res : Results) (ro : RecObj) (recs : List ℕ) (gv : Bool)
    (sel : Option ℕ) : ErrorForm (runTail env st tr res ro recs gv sel) := by
  unfold runTail
  dsimp only
  repeat' split
  all_goals
    first
      | exact errorForm_errOut _ _ _ _
      | (intro h; simp [setUI] at h)

theorem runSaveGuard_errorForm (env : Env) (st : PState) (tr : List Ev)
    (res : Results) (ro : RecObj) (recs : List ℕ) (gv : Bool)
    (sel : Option ℕ) : ErrorForm (runSaveGuard env st tr res ro recs gv sel) := by
  unfold runSaveGuard
  dsimp only
  repeat' split
  all_goals
    first
      | exact errorForm_errOut _ _ _ _
      | exact runTail_errorForm _ _ _ _ _ _ _ _

theorem runFromAnalysis_errorForm (env : Env) (st : PState) (tr : List Ev)
    (analysis : ℕ) (gv : Bool) (sel : Option ℕ) :
    ErrorForm (runFromAnalysis env st tr analysis gv sel) := by
  unfold runFromAnalysis
  dsimp only
  repeat' split
  all_goals
    first
      | exact errorForm_errOut _ _ _ _
      | exact runSaveGuard_errorForm _ _ _ _ _ _ _ _

theorem runFullPath_errorForm (env : Env) (st : PState) (gv : Bool)
    (sel : Option ℕ) : ErrorForm (runFullPath env st gv sel) := by
  unfold runFullPath
  dsimp only
  repeat' split
  all_goals
    first
      | exact errorForm_errOut _ _ _ _
      | exact runFromAnalysis_errorForm _ _ _ _ _ _
      | (intro h; simp [setUI] at h)

theorem runPipeline_errorForm (env : Env) (st : PState) (gv : Bool)
    (sel : Option ℕ) : ErrorForm (runPipeline env st gv sel) := by
  unfold runPipeline
  dsimp only
  repeat' split
  all_goals
    first
      | exact runFullPath_errorForm _ _ _ _
      | exact runFromAnalysis_errorForm _ _ _ _ _ _

/-- With the idempotent guard already set, `runSaveGuard` never saves
again and the guard stays set. -/
theorem runSaveGuard_saved (env : Env) (st : PState) (tr : List Ev)
    (res : Results) (ro : RecObj) (recs : List ℕ) (gv : Bool)
    (sel : Option ℕ) (hs : st.recommendations_saved = true) :
    ∃ ex, (runSaveGuard env st tr res ro recs gv sel).trace = tr ++ ex
      ∧ ex.Sublist [Ev.genScript, Ev.saveScript, Ev.formatScript, Ev.render]
      ∧ (runSaveGuard env st tr res ro recs gv sel).state.recommendations_saved
          = true := by
  obtain ⟨ex, h1, h2, -, -, h5⟩ := runTail_shape env st tr res ro recs gv sel
  exact ⟨ex, by simp [runSaveGuard, hs, h1], h2,
    by simp [runSaveGuard, hs, h5]⟩

/-- On a run with a selection index, `runFromAnalysis` never calls the
recommendation oracle; with the saved-guard set it also never saves and
leaves the guard set. -/
theorem runFromAnalysis_selSome (env : Env) (st : PState) (tr : List Ev)
    (analysis : ℕ) (gv : Bool) (i : ℕ) :
    ∃ ex, (runFromAnalysis env st tr analysis gv (some i)).trace = tr ++ ex
      ∧ ex.Sublist [Ev.saveRecs, Ev.genScript, Ev.saveScript, Ev.formatScript,
          Ev.render]
      ∧ (st.recommendations_saved = true →
          Ev.saveRecs ∉ ex
          ∧ (runFromAnalysis env st tr analysis gv
              (some i)).state.recommendations_saved = true) := by
  rcases hob : st.recommendation_object with _ | ro
  · exact ⟨[], by simp [runFromAnalysis, setUI, errOut, hob],
      List.nil_sublist _,
      fun hs => ⟨by simp, by simp [runFromAnalysis, setUI, errOut, hob, hs]⟩⟩
  · rcases hrc : st.recommendations with _ | recs
    · exact ⟨[], by simp [runFromAnalysis, setUI, errOut, hob, hrc],
        List.nil_sublist _,
        fun hs => ⟨by simp, by simp [runFromAnalysis, setUI, errOut, hob, hrc, hs]⟩⟩
    · by_cases hs : st.recommendations_saved = true
      · obtain ⟨ex, h1, h2, h3⟩ :=
          runSaveGuard_saved env
            (setUI st "Running" "Step 4/6: LLM Agents generating strategy...")
            tr { analysis := some analysis } ro recs gv (some i)
            (by simp [setUI, hs])
        simp only [setUI, hob, hrc] at h1 h3
        refine ⟨ex, by simp [runFromAnalysis, setUI, hob, hrc, h1], ?_, ?_⟩
        · exact List.Sublist.trans h2 (by decide)
        · intro _
          refine ⟨fun hmem => ?_, by simp [runFromAnalysis, setUI, hob, hrc, h3]⟩
          have := h2.subset hmem
          simp at this
      · obtain ⟨ex, h1, h2, -, -⟩ :=
          runSaveGuard_shape env
            (setUI st "Running" "Step 4/6: LLM Agents generating strategy...")
            tr { analysis := some analysis } ro recs gv (some i)
        simp only [setUI, hob, hrc] at h1
        exact ⟨ex, by simp [runFromAnalysis, setUI, hob, hrc, h1], h2,
          fun hcon => absurd hcon hs⟩

/-- Trace and state discipline of the full path: a prefix of collection
events followed by step-4-onward events; the oracle runs only after the
analyzer; the cache is only written by the analyze stage; with a
selection index the oracle is not called and a set saved-guard is
honoured and kept. -/
theorem runFullPath_shape (env : Env) (st : PState) (gv : Bool)
    (sel : Option ℕ) :
    ∃ pre ex, (runFullPath env st gv sel).trace = pre ++ ex
      ∧ pre.Sublist [Ev.fetchData, Ev.fetchStats, Ev.findCompetitors,
          Ev.fetchCompVideos, Ev.analyze]
      ∧ ex.Sublist [Ev.genRecs, Ev.saveRecs, Ev.genScript, Ev.saveScript,
          Ev.formatScript, Ev.render]
      ∧ (Ev.genRecs ∈ ex → Ev.analyze ∈ pre)
      ∧ (Ev.analyze ∉ pre →
          (runFullPath env st gv sel).state.analysis_results
            = st.analysis_results)
      ∧ (∀ i, sel = some i →
          Ev.genRecs ∉ ex
          ∧ (st.recommendations_saved = true →
              Ev.saveRecs ∉ ex
              ∧ (runFullPath env st gv sel).state.recommendations_saved
                  = true)) := by
  rcases hfv : env.fetchVideos with m | videos
  · exact ⟨[Ev.fetchData], [], by simp [runFullPath, setUI, errOut, hfv],
      by decide, List.nil_sublist _, by simp,
      fun _ => by simp [runFullPath, setUI, errOut, hfv],
      fun i _ => ⟨by simp,
        fun hs => ⟨by simp, by simp [runFullPath, setUI, errOut, hfv, hs]⟩⟩⟩
  · rcases hfs : env.fetchStats with m | u
    · exact ⟨[Ev.fetchData, Ev.fetchStats], [],
        by simp [runFullPath, setUI, errOut, hfv, hfs],
        by decide, List.nil_sublist _, by simp,
        fun _ => by simp [runFullPath, setUI, errOut, hfv, hfs],
        fun i _ => ⟨by simp,
          fun hs => ⟨by simp, by simp [runFullPath, setUI, errOut, hfv, hfs, hs]⟩⟩⟩
    · rcases videos with _ | n
      · exact ⟨[Ev.fetchData, Ev.fetchStats], [],
          by simp [runFullPath, setUI, errOut, hfv, hfs],
          by decide, List.nil_sublist _, by simp,
          fun _ => by simp [runFullPath, setUI, errOut, hfv, hfs],
          fun i _ => ⟨by simp,
            fun hs => ⟨by simp,
              by simp [runFullPath, setUI, errOut, hfv, hfs, hs]⟩⟩⟩
      · rcases n with _ | n
        · exact ⟨[Ev.fetchData, Ev.fetchStats], [],
            by simp [runFullPath, setUI, errOut, hfv, hfs],
            by decide, List.nil_sublist _, by simp,
            fun _ => by simp [runFullPath, setUI, errOut, hfv, hfs],
            fun i _ => ⟨by simp,
              fun hs => ⟨by simp,
                by simp [runFullPath, setUI, errOut, hfv, hfs, hs]⟩⟩⟩
        · rcases hfc : env.findCompetitors with m | u2
          · exact ⟨[Ev.fetchData, Ev.fetchStats, Ev.findCompetitors], [],
              by simp [runFullPath, setUI, errOut, hfv, hfs, hfc],
              by decide, List.nil_sublist _, by simp,
              fun _ => by simp [runFullPath, setUI, errOut, hfv, hfs, hfc],
              fun i _ => ⟨by simp,
                fun hs => ⟨by simp,
                  by simp [runFullPath, setUI, errOut, hfv, hfs, hfc, hs]⟩⟩⟩
          · rcases hcv : env.fetchCompVideos with m | u3
            · exact ⟨[Ev.fetchData, Ev.fetchStats, Ev.findCompetitors,
                  Ev.fetchCompVideos], [],
                by simp [runFullPath, setUI, errOut, hfv, hfs, hfc, hcv],
                by decide, List.nil_sublist _, by simp,
                fun _ => by simp [runFullPath, setUI, errOut, hfv, hfs, hfc, hcv],
                fun i _ => ⟨by simp,
                  fun hs => ⟨by simp,
                    by simp [runFullPath, setUI, errOut, hfv, hfs, hfc, hcv, hs]⟩⟩⟩
            · rcases han : env.analyzeMetrics with m | a
              · exact ⟨[Ev.fetchData, Ev.fetchStats, Ev.findCompetitors,
                    Ev.fetchCompVideos, Ev.analyze], [],
                  by simp [runFullPath, setUI, errOut, hfv, hfs, hfc, hcv, han],
                  by decide, List.nil_sublist _, by simp,
                  fun _ =>
                    by simp [runFullPath, setUI, errOut, hfv, hfs, hfc, hcv, han],
                  fun i _ => ⟨by simp,
                    fun hs => ⟨by simp,
                      by simp [runFullPath, setUI, errOut, hfv, hfs, hfc, hcv,
                        han, hs]⟩⟩⟩
              · rcases sel with _ | i
                · obtain ⟨ex, h1, h2, -, -⟩ :=
                    runFromAnalysis_shape env
                      { setUI (setUI (setUI st "Running"
                            "Step 1/6: Fetching channel statistics...")
                          "Running" "Step 2/6: Identifying competitor trends...")
                          "Running" "Step 3/6: Analyzing engagement metrics..." with
                        analysis_results := some a }
                      [Ev.fetchData, Ev.fetchStats, Ev.findCompetitors,
                        Ev.fetchCompVideos, Ev.analyze] a gv none
                  simp only [setUI] at h1
                  refine ⟨[Ev.fetchData, Ev.fetchStats, Ev.findCompetitors,
                      Ev.fetchCompVideos, Ev.analyze], ex,
                    by simp [runFullPath, setUI, hfv, hfs, hfc, hcv, han, h1],
                    List.Sublist.refl _, h2, fun _ => by decide,
                    fun hna => absurd (by decide) hna,
                    fun i hcon => by cases hcon⟩
                · obtain ⟨ex, h1, h2, h3⟩ :=
                    runFromAnalysis_selSome env
                      { setUI (setUI (setUI st "Running"
                            "Step 1/6: Fetching channel statistics...")
                          "Running" "Step 2/6: Identifying competitor trends...")
                          "Running" "Step 3/6: Analyzing engagement metrics..." with
                        analysis_results := some a }
                      [Ev.fetchData, Ev.fetchStats, Ev.findCompetitors,
                        Ev.fetchCompVideos, Ev.analyze] a gv i
                  simp only [setUI] at h1 h3
                  refine ⟨[Ev.fetchData, Ev.fetchStats, Ev.findCompetitors,
                      Ev.fetchCompVideos, Ev.analyze], ex,
                    by simp [runFullPath, setUI, hfv, hfs, hfc, hcv, han, h1],
                    List.Sublist.refl _, List.Sublist.trans h2 (by decide),
                    fun hmem => by decide,
                    fun hna => absurd (by decide) hna, ?_⟩
                  intro j hj
                  refine ⟨fun hmem => ?_, ?_⟩
                  · have := h2.subset hmem
                    simp at this
                  · intro hs
                    rcases h3 hs with ⟨hns, hflag⟩
                    exact ⟨hns,
                      by simp [runFullPath, setUI, hfv, hfs, hfc, hcv, han, hflag]⟩

/-- On any run with a selection index the recommendation oracle is never
invoked, and a set saved-guard means no save happens and the guard
survives the run. -/
theorem runPipeline_selSome (env : Env) (st : PState) (gv : Bool) (i : ℕ) :
    Ev.genRecs ∉ (runPipeline env st gv (some i)).trace
    ∧ (st.recommendations_saved = true →
        Ev.saveRecs ∉ (runPipeline env st gv (some i)).trace
        ∧ (runPipeline env st gv (some i)).state.recommendations_saved
            = true) := by
  by_cases hc : canSkipAnalysis st (some i) = true
  · rcases ha : st.analysis_results with _ | a
    · simp [canSkipAnalysis, ha] at hc
    · have hrw : runPipeline env st gv (some i)
          = runFromAnalysis env
              (setUI st "Running" "Fast-tracking: Using cached analysis data...")
              [] a gv (some i) := by
        simp [runPipeline, hc, ha]
      obtain ⟨ex, h1, h2, h3⟩ :=
        runFromAnalysis_selSome env
          (setUI st "Running" "Fast-tracking: Using cached analysis data...")
          [] a gv i
      simp only [setUI] at h3
      rw [hrw, h1]
      refine ⟨fun hmem => ?_, fun hs => ?_⟩
      · have := h2.subset (by simpa using hmem)
        simp at this
      · rcases h3 hs with ⟨hns, hflag⟩
        exact ⟨by simpa using hns, hflag⟩
  · have hrw : runPipeline env st gv (some i) = runFullPath env st gv (some i) := by
      simp [runPipeline, hc]
    obtain ⟨pre, ex, h1, h2, h3, -, -, h6⟩ := runFullPath_shape env st gv (some i)
    rcases h6 i rfl with ⟨hng, hsv⟩
    rw [hrw, h1]
    refine ⟨fun hmem => ?_, fun hs => ?_⟩
    · rcases List.mem_append.mp hmem with h | h
      · have := h2.subset h
        simp at this
      · exact hng h
    · rcases hsv hs with ⟨hns, hflag⟩
      refine ⟨fun hmem => ?_, hflag⟩
      rcases List.mem_append.mp hmem with h | h
      · have := h2.subset h
        simp at this
      · exact hns h

/-- No collaborator is ever invoked twice within one run. -/
theorem runPipeline_trace_nodup (env : Env) (st : PState) (gv : Bool)
    (sel : Option ℕ) : (runPipeline env st gv sel).trace.Nodup := by
  by_cases hc : canSkipAnalysis st sel = true
  · rcases ha : st.analysis_results with _ | a
    · simp [canSkipAnalysis, ha] at hc
    · rcases sel with _ | i
      · simp [canSkipAnalysis] at hc
      · have hrw : runPipeline env st gv (some i)
            = runFromAnalysis env
                (setUI st "Running" "Fast-tracking: Using cached analysis data...")
                [] a gv (some i) := by
          simp [runPipeline, hc, ha]
        obtain ⟨ex, h1, h2, -, -⟩ :=
          runFromAnalysis_shape env
            (setUI st "Running" "Fast-tracking: Using cached analysis data...")
            [] a gv (some i)
        rw [hrw, h1]
        exact List.Nodup.sublist (by simpa using h2) (by decide)
  · have hrw : runPipeline env st gv sel = runFullPath env st gv sel := by
      simp [runPipeline, hc]
    obtain ⟨pre, ex, h1, h2, h3, -, -, -⟩ := runFullPath_shape env st gv sel
    rw [hrw, h1]
    exact List.Nodup.sublist (List.Sublist.append h2 h3) (by decide)

/-! ### Concrete collaborators and states for the orchestrator claims -/

/-- An environment in which every collaborator call succeeds. -/
def okEnv : Env :=
  { fetchVideos := .ok (some 5), fetchStats := .ok (),
    findCompetitors := .ok (), fetchCompVideos := .ok (),
    analyzeMetrics := .ok 42, genRecs := fun _ => .ok [7, 8, 9],
    saveRec := .ok (), genScript := fun r => .ok (r * 10),
    saveScript := .ok (), formatScript := fun s => .ok (s + 1),
    render := fun _ => .ok "out.mp4", now := "T" }

/-- The initial shared state of a fresh deployment. -/
def initSt : PState := {}

/-- A shared state as left by a completed fresh run: cached analysis,
cached recommendations and recommender object, saved-guard set. -/
def readySt : PState :=
  { analysis_results := some 42,
    recommendation_object := some ⟨some [7, 8, 9]⟩,
    recommendations := some [7, 8, 9],
    recommendations_saved := true }

/-- Collaborators for C2's witness: item collection yields an empty frame. -/
def emptyFetchEnv : Env := { okEnv with fetchVideos := .ok (some 0) }

/-! ### Claim theorems for the Pipeline Orchestrator -/

/-- C1: on every run whose shared state holds a cached analysis and whose
selection index is non-null, no data fetching, no competitor discovery
and no analysis happen (those collaborators never appear in the trace),
and both the per-run analysis field and the cached analysis equal the
cached value. -/
theorem C1_fast_track_skip (env : Env) (st0 : PState) (gv : Bool) (i a : ℕ)
    (ha : st0.analysis_results = some a) :
    Ev.fetchData ∉ (runPipeline env st0 gv (some i)).trace
    ∧ Ev.fetchStats ∉ (runPipeline env st0 gv (some i)).trace
    ∧ Ev.findCompetitors ∉ (runPipeline env st0 gv (some i)).trace
    ∧ Ev.fetchCompVideos ∉ (runPipeline env st0 gv (some i)).trace
    ∧ Ev.analyze ∉ (runPipeline env st0 gv (some i)).trace
    ∧ (runPipeline env st0 gv (some i)).results.analysis = some a
    ∧ (runPipeline env st0 gv (some i)).state.analysis_results = some a := by
  have hrw : runPipeline env st0 gv (some i)
      = runFromAnalysis env
          (setUI st0 "Running" "Fast-tracking: Using cached analysis data...")
          [] a gv (some i) := by
    simp [runPipeline, canSkipAnalysis, ha]
  obtain ⟨ex, h1, h2, h3, h4⟩ :=
    runFromAnalysis_shape env
      (setUI st0 "Running" "Fast-tracking: Using cached analysis data...")
      [] a gv (some i)
  have hnot : ∀ e, e ∈ [Ev.genRecs, Ev.saveRecs, Ev.genScript, Ev.saveScript,
      Ev.formatScript, Ev.render] → e ≠ Ev.fetchData ∧ e ≠ Ev.fetchStats
      ∧ e ≠ Ev.findCompetitors ∧ e ≠ Ev.fetchCompVideos ∧ e ≠ Ev.analyze := by
    decide
  rw [hrw]
  refine ⟨?_, ?_, ?_, ?_, ?_, h3, by simpa [setUI, ha] using h4⟩ <;>
    · intro hmem
      rw [h1] at hmem
      have := hnot _ (h2.subset (by simpa using hmem))
      simp at this

/-- Closed instance of C1 at a ready state and a healthy environment. -/
theorem C1_fast_track_skip_witness :
    Ev.fetchData ∉ (runPipeline okEnv readySt true (some 0)).trace
    ∧ Ev.fetchStats ∉ (runPipeline okEnv readySt true (some 0)).trace
    ∧ Ev.findCompetitors ∉ (runPipeline okEnv readySt true (some 0)).trace
    ∧ Ev.fetchCompVideos ∉ (runPipeline okEnv readySt true (some 0)).trace
    ∧ Ev.analyze ∉ (runPipeline okEnv readySt true (some 0)).trace
    ∧ (runPipeline okEnv readySt true (some 0)).results.analysis = some 42
    ∧ (runPipeline okEnv readySt true (some 0)).state.analysis_results = some 42 :=
  C1_fast_track_skip okEnv readySt true 0 42 rfl

/-- C2: on every non-fast-track run whose item collection succeeds but
yields an absent or empty frame (and whose channel-summary fetch does not
itself raise), the run ends in phase `Failed` with the no-data detail,
returns `None` immediately after the two fetch calls, never invokes the
analyzer, and constructs no analysis result. -/
theorem C2_no_data_failure (env : Env) (st0 : PState) (gv : Bool)
    (sel : Option ℕ) (hns : canSkipAnalysis st0 sel = false)
    (hfetch : env.fetchVideos = .ok none ∨ env.fetchVideos = .ok (some 0))
    (hstats : env.fetchStats = .ok ()) :
    (runPipeline env st0 gv sel).state.status = "Failed"
    ∧ (runPipeline env st0 gv sel).state.details
        = "No videos found for this channel."
    ∧ (runPipeline env st0 gv sel).retval = none
    ∧ (runPipeline env st0 gv sel).trace = [Ev.fetchData, Ev.fetchStats]
    ∧ Ev.analyze ∉ (runPipeline env st0 gv sel).trace
    ∧ (runPipeline env st0 gv sel).results.analysis = none
    ∧ (runPipeline env st0 gv sel).state.analysis_results
        = st0.analysis_results := by
  have hrw : runPipeline env st0 gv sel = runFullPath env st0 gv sel := by
    simp [runPipeline, hns]
  rw [hrw]
  rcases hfetch with hf | hf <;>
    simp [runFullPath, setUI, hf, hstats]

/-- Closed instance of C2: empty collection on the initial state. -/
theorem C2_no_data_failure_witness :
    (runPipeline emptyFetchEnv initSt true none).state.status = "Failed"
    ∧ (runPipeline emptyFetchEnv initSt true none).state.details
        = "No videos found for this channel."
    ∧ (runPipeline emptyFetchEnv initSt true none).retval = none
    ∧ (runPipeline emptyFetchEnv initSt true none).trace
        = [Ev.fetchData, Ev.fetchStats]
    ∧ Ev.analyze ∉ (runPipeline emptyFetchEnv initSt true none).trace
    ∧ (runPipeline emptyFetchEnv initSt true none).results.analysis = none
    ∧ (runPipeline emptyFetchEnv initSt true none).state.analysis_results
        = initSt.analysis_results :=
  C2_no_data_failure emptyFetchEnv initSt true none rfl (Or.inr rfl) rfl

/-- C3: the recommendation oracle runs only on selection-free runs, in
which the analysis in use was freshly computed during that same run (so
no recommendations are cached for it yet); and across a fresh
recommendation-generating run followed by two fast-track runs sharing
that recommendation set, the set is persisted exactly once — the
idempotent `recommendations_saved` guard blocks any second save. -/
theorem C3_recommendation_caching_and_single_persistence :
    (∀ (env : Env) (st : PState) (gv : Bool) (sel : Option ℕ),
        Ev.genRecs ∈ (runPipeline env st gv sel).trace →
          sel = none ∧ Ev.analyze ∈ (runPipeline env st gv sel).trace)
    ∧ (∀ (env1 env2 env3 : Env) (st0 : PState) (gv1 gv2 gv3 : Bool)
        (i j n a : ℕ) (recs : List ℕ),
        env1.fetchVideos = .ok (some (n + 1)) →
        env1.fetchStats = .ok () →
        env1.findCompetitors = .ok () →
        env1.fetchCompVideos = .ok () →
        env1.analyzeMetrics = .ok a →
        env1.genRecs a = .ok recs →
        env1.saveRec = .ok () →
        ((runPipeline env1 st0 gv1 none).trace
          ++ (runPipeline env2 (runPipeline env1 st0 gv1 none).state gv2
                (some i)).trace
          ++ (runPipeline env3
                (runPipeline env2 (runPipeline env1 st0 gv1 none).state gv2
                  (some i)).state gv3 (some j)).trace).count Ev.saveRecs
          = 1) := by
  constructor
  · intro env st gv sel hmem
    rcases sel with _ | i
    · refine ⟨rfl, ?_⟩
      have hrw : runPipeline env st gv none = runFullPath env st gv none := by
        simp [runPipeline, canSkipAnalysis]
      obtain ⟨pre, ex, h1, h2, -, h4, -, -⟩ := runFullPath_shape env st gv none
      rw [hrw, h1] at hmem ⊢
      rcases List.mem_append.mp hmem with h | h
      · have := h2.subset h
        simp at this
      · exact List.mem_append_left ex (h4 h)
    · exact absurd hmem (runPipeline_selSome env st gv i).1
  · intro env1 env2 env3 st0 gv1 gv2 gv3 i j n a recs hfv hfs hfc hcv han hgr hsv
    have h1trace : (runPipeline env1 st0 gv1 none).trace
        = [Ev.fetchData, Ev.fetchStats, Ev.findCompetitors, Ev.fetchCompVideos,
            Ev.analyze, Ev.genRecs, Ev.saveRecs] := by
      simp [runPipeline, canSkipAnalysis, runFullPath, runFromAnalysis,
        runSaveGuard, runTail, setUI, hfv, hfs, hfc, hcv, han, hgr, hsv]
    have h1flag : (runPipeline env1 st0 gv1 none).state.recommendations_saved
        = true := by
      simp [runPipeline, canSkipAnalysis, runFullPath, runFromAnalysis,
        runSaveGuard, runTail, setUI, hfv, hfs, hfc, hcv, han, hgr, hsv]
    rcases runPipeline_selSome env2 (runPipeline env1 st0 gv1 none).state gv2 i
      with ⟨-, h2s⟩
    rcases h2s h1flag with ⟨h2ns, h2flag⟩
    rcases runPipeline_selSome env3
      (runPipeline env2 (runPipeline env1 st0 gv1 none).state gv2 (some i)).state
      gv3 j with ⟨-, h3s⟩
    rcases h3s h2flag with ⟨h3ns, -⟩
    rw [List.count_append, List.count_append, h1trace,
      List.count_eq_zero.mpr h2ns, List.count_eq_zero.mpr h3ns]
    decide

/-- Closed instance of C3's exactly-once persistence across a fresh run
and two fast-track runs in a healthy environment. -/
theorem C3_recommendation_caching_witness :
    ((runPipeline okEnv initSt true none).trace
      ++ (runPipeline okEnv (runPipeline okEnv initSt true none).state true
            (some 0)).trace
      ++ (runPipeline okEnv
            (runPipeline okEnv (runPipeline okEnv initSt true none).state true
              (some 0)).state true (some 1)).trace).count Ev.saveRecs = 1 :=
  C3_recommendation_caching_and_single_persistence.2 okEnv okEnv okEnv initSt
    true true true 0 1 4 42 [7, 8, 9] rfl rfl rfl rfl rfl rfl rfl

/-- C4: a selection-free run that passes all its stages halts in phase
`Waiting` with the recommendations cached in the shared state and the
script, formatted-script and artifact result fields all null, returning
`None`. -/
theorem C4_no_selection_halt (env : Env) (st0 : PState) (gv : Bool)
    (n a : ℕ) (recs : List ℕ)
    (hfv : env.fetchVideos = .ok (some (n + 1)))
    (hfs : env.fetchStats = .ok ())
    (hfc : env.findCompetitors = .ok ())
    (hcv : env.fetchCompVideos = .ok ())
    (han : env.analyzeMetrics = .ok a)
    (hgr : env.genRecs a = .ok recs)
    (hsv : env.saveRec = .ok ()) :
    (runPipeline env st0 gv none).state.status = "Waiting"
    ∧ (runPipeline env st0 gv none).state.recommendations = some recs
    ∧ (runPipeline env st0 gv none).results.recommendations = some recs
    ∧ (runPipeline env st0 gv none).results.script = none
    ∧ (runPipeline env st0 gv none).results.formatted_script = none
    ∧ (runPipeline env st0 gv none).results.video_path = none
    ∧ (runPipeline env st0 gv none).retval = none := by
  simp [runPipeline, canSkipAnalysis, runFullPath, runFromAnalysis,
    runSaveGuard, runTail, setUI, hfv, hfs, hfc, hcv, han, hgr, hsv]

/-- Closed instance of C4 at the initial state with healthy collaborators. -/
theorem C4_no_selection_halt_witness :
    (runPipeline okEnv initSt true none).state.status = "Waiting"
    ∧ (runPipeline okEnv initSt true none).state.recommendations = some [7, 8, 9]
    ∧ (runPipeline okEnv initSt true none).results.recommendations
        = some [7, 8, 9]
    ∧ (runPipeline okEnv initSt true none).results.script = none
    ∧ (runPipeline okEnv initSt true none).results.formatted_script = none
    ∧ (runPipeline okEnv initSt true none).results.video_path = none
    ∧ (runPipeline okEnv initSt true none).retval = none :=
  C4_no_selection_halt okEnv initSt true 4 42 [7, 8, 9] rfl rfl rfl rfl rfl
    rfl rfl

/-- Collaborators for the C9 counterexample: everything up to analysis
succeeds (producing analysis token 42), then the recommendation oracle
raises. -/
def failRecEnv : Env := { okEnv with genRecs := fun _ => .error "boom" }

/-- A shared state holding a previously cached analysis token 7. -/
def cachedSt : PState := { analysis_results := some 7 }

/-- C9 counterexample: a selection-free run over a state whose cache
holds analysis 7 recomputes and re-caches a fresh analysis (42) before
the recommendation stage raises; the handler sets `Error` with the
message, but the previously cached analysis has been replaced, not left
untouched. -/
theorem C9_counterexample :
    cachedSt.analysis_results = some 7
    ∧ (runPipeline failRecEnv cachedSt true none).state.status = "Error"
    ∧ (runPipeline failRecEnv cachedSt true none).state.details
        = "Pipeline failed: boom"
    ∧ (runPipeline failRecEnv cachedSt true none).state.analysis_results
        = some 42
    ∧ (runPipeline failRecEnv cachedSt true none).state.analysis_results
        ≠ cachedSt.analysis_results := by
  refine ⟨rfl, ?_, ?_, ?_, ?_⟩ <;>
    simp [runPipeline, canSkipAnalysis, runFullPath, runFromAnalysis,
      runSaveGuard, runTail, setUI, errOut, failRecEnv, okEnv, cachedSt]

/-- C9 amended: every uncaught stage failure is caught at the top level —
the phase becomes `Error` with the message in the detail and the run
returns `None`; no stage runs twice in a run (no internal retry); a
cached analysis present at the start of a selection-supplied run is
preserved exactly; and in any run that never reaches the analyze stage
the cached analysis is left untouched. A selection-free full run that
fails after the analyze stage has, by design, already replaced the cache
with the fresh result (which a caller-initiated retry can reuse). -/
theorem C9_error_handling_amended :
    (∀ (env : Env) (st : PState) (gv : Bool) (sel : Option ℕ),
        (runPipeline env st gv sel).state.status = "Error" →
          (∃ m, (runPipeline env st gv sel).state.details
              = "Pipeline failed: " ++ m)
          ∧ (runPipeline env st gv sel).retval = none)
    ∧ (∀ (env : Env) (st : PState) (gv : Bool) (sel : Option ℕ),
        (runPipeline env st gv sel).trace.Nodup)
    ∧ (∀ (env : Env) (st : PState) (gv : Bool) (i a : ℕ),
        st.analysis_results = some a →
          (runPipeline env st gv (some i)).state.analysis_results = some a)
    ∧ (∀ (env : Env) (st : PState) (gv : Bool) (sel : Option ℕ),
        Ev.analyze ∉ (runPipeline env st gv sel).trace →
          (runPipeline env st gv sel).state.analysis_results
            = st.analysis_results) := by
  refine ⟨fun env st gv sel => runPipeline_errorForm env st gv sel,
    fun env st gv sel => runPipeline_trace_nodup env st gv sel, ?_, ?_⟩
  · intro env st gv i a ha
    have hrw : runPipeline env st gv (some i)
        = runFromAnalysis env
            (setUI st "Running" "Fast-tracking: Using cached analysis data...")
            [] a gv (some i) := by
      simp [runPipeline, canSkipAnalysis, ha]
    obtain ⟨ex, -, -, -, h4⟩ :=
      runFromAnalysis_shape env
        (setUI st "Running" "Fast-tracking: Using cached analysis data...")
        [] a gv (some i)
    rw [hrw]
    simpa [setUI, ha] using h4
  · intro env st gv sel hna
    by_cases hc : canSkipAnalysis st sel = true
    · rcases ha : st.analysis_results with _ | a
      · simp [canSkipAnalysis, ha] at hc
      · rcases sel with _ | i
        · simp [canSkipAnalysis] at hc
        · have hrw : runPipeline env st gv (some i)
              = runFromAnalysis env
                  (setUI st "Running"
                    "Fast-tracking: Using cached analysis data...")
                  [] a gv (some i) := by
            simp [runPipeline, hc, ha]
          obtain ⟨ex, -, -, -, h4⟩ :=
            runFromAnalysis_shape env
              (setUI st "Running" "Fast-tracking: Using cached analysis data...")
              [] a gv (some i)
          rw [hrw]
          rw [hrw] at hna
          simpa [setUI, ha] using h4
    · have hrw : runPipeline env st gv sel = runFullPath env st gv sel := by
        simp [runPipeline, hc]
      obtain ⟨pre, ex, h1, -, -, -, h5, -⟩ := runFullPath_shape env st gv sel
      rw [hrw] at hna ⊢
      refine h5 fun hpre => hna ?_
      rw [h1]
      exact List.mem_append_left ex hpre

/-- Closed instance of C9 (amended): a fast-track run over a state with
cached analysis 7 preserves the cache exactly. -/
theorem C9_error_handling_amended_witness :
    (runPipeline okEnv cachedSt true (some 0)).state.analysis_results
      = some 7 :=
  C9_error_handling_amended.2.2.1 okEnv cachedSt true 0 7 rfl

/-! ## Part 3: frame effects of the Analysis Engine (claim C10)

The channel DataFrame as a record of optional columns (a column is
`none` when absent). `nrows` is the row count, used when pandas
broadcasts a scalar assignment over the frame. The timestamp column is
not part of this model: on frames without it, `_extract_trending_topics`
and `_analyze_temporal_patterns` assign no column (the former takes
`df.head(10)` without assignment; the latter works on `df.copy()`).
Duration parsing and title clustering call external machinery
(`re` / sklearn) and are opaque parameters here. -/

structure DFrame where
  nrows : ℕ
  views : Option (List ℕ) := none
  likes : Option (List ℕ) := none
  comments_count : Option (List ℕ) := none
  title : Option (List String) := none
  engagement_rate : Option (List ℚ) := none
  performance_score : Option (List ℚ) := none
  title_length : Option (List ℕ) := none
  duration : Option (List String) := none
  duration_seconds : Option (List ℕ) := none
  topic_cluster : Option (List ℕ) := none
  deriving Repr, DecidableEq

/-- Row-wise combination of three columns. -/
def zipWith3 (f : α → β → γ → δ) : List α → List β → List γ → List δ
  | a :: as, b :: bs, c :: cs => f a b c :: zipWith3 f as bs cs
  | _, _, _ => []

/-- Step 1 of `MetricsAnalyzer._ensure_metrics_columns` (lines 37-41):
compute `engagement_rate` in place when absent; a zero broadcast when a
counter column is missing. -/
def fillEngagementRate (df : DFrame) : DFrame :=
  if df.engagement_rate.isSome then df
  else
    match df.likes, df.comments_count, df.views with
    | some ls, some cs, some vs =>
        let er := zipWith3 (fun l c v => engagementRate l c v) ls cs vs
        { df with engagement_rate := some er }
    | _, _, _ => { df with engagement_rate := some (List.replicate df.nrows 0) }

/-- Lines 44-45: `df['likes'] = 0` when the column is absent. -/
def fillLikes (df : DFrame) : DFrame :=
  if df.likes.isSome then df
  else { df with likes := some (List.replicate df.nrows 0) }

/-- Lines 47-48: `df['comments_count'] = 0` when the column is absent. -/
def fillComments (df : DFrame) : DFrame :=
  if df.comments_count.isSome then df
  else { df with comments_count := some (List.replicate df.nrows 0) }

/-- Lines 50-51: `df['views'] = 0` when the column is absent. -/
def fillViews (df : DFrame) : DFrame :=
  if df.views.isSome then df
  else { df with views := some (List.replicate df.nrows 0) }

/-- Lines 53-54: broadcast an empty title when the column is absent. -/
def fillTitle (df : DFrame) : DFrame :=
  if df.title.isSome then df
  else { df with title := some (List.replicate df.nrows "") }

/-- `MetricsAnalyzer._ensure_metrics_columns` (lines 32-54): the five
in-place column fills in statement order. -/
def ensureMetricsColumns (df : DFrame) : DFrame :=
  fillTitle (fillViews (fillComments (fillLikes (fillEngagementRate df))))

/-- The frame effect of `MetricsAnalyzer._get_best_performing_video`
(lines 122-137): when the three counter columns are present it assigns
the `performance_score` column in place; otherwise it returns a default
record without touching the frame. -/
def bestVideoEffect (df : DFrame) : DFrame :=
  match df.views, df.likes, df.comments_count with
  | some vs, some ls, some cs =>
      let scores := zipWith3
        (fun v l c => (v : ℚ) / safeMax vs * (4/10)
          + (l : ℚ) / safeMax ls * (3/10) + (c : ℚ) / safeMax cs * (3/10))
        vs ls cs
      { df with performance_score := some scores }
  | _, _, _ => df

/-- The frame effect of `MetricsAnalyzer._get_worst_performing_video`
(lines 155-192): the filtered frame is a fresh object and no column is
assigned, so the input frame is unchanged. -/
def worstVideoEffect (df : DFrame) : DFrame := df

/-- The frame effect of `MetricsAnalyzer._analyze_channel_metrics`
(lines 104-120) on a frame without a timestamp column: the best-item
computation assigns `performance_score`; the worst-item computation and
the trending-topic extraction (which takes `df.head(10)` when no
timestamp column exists) assign nothing. -/
def channelMetricsEffect (df : DFrame) : DFrame :=
  worstVideoEffect (bestVideoEffect df)

/-- Line 238 of metrics_analyzer.py: assign `title_length` in place
(lengths of titles, or a zero broadcast when the title column is absent). -/
def assignTitleLength (df : DFrame) : DFrame :=
  match df.title with
  | some ts => { df with title_length := some (ts.map String.length) }
  | none => { df with title_length := some (List.replicate df.nrows 0) }

/-- Line 242: assign `duration_seconds` in place (parsed durations, or a
300 broadcast when the duration column is absent). -/
def assignDurationSeconds (parseDur : String → ℕ) (df : DFrame) : DFrame :=
  match df.duration with
  | some ds => { df with duration_seconds := some (ds.map parseDur) }
  | none => { df with duration_seconds := some (List.replicate df.nrows 300) }

/-- `MetricsAnalyzer._cluster_topics` (lines 272-301): assigns
`topic_cluster` only on frames with at least 3 rows and a title column,
and only when the clustering machinery (`cluster`, opaque here) does not
raise; any failure leaves the frame unchanged. -/
def clusterTopicsEffect (cluster : List String → Option (List ℕ))
    (df : DFrame) : DFrame :=
  if df.nrows < 3 then df
  else
    match df.title with
    | none => df
    | some ts =>
        match cluster ts with
        | some labels => { df with topic_cluster := some labels }
        | none => df

/-- The frame effect of `MetricsAnalyzer._analyze_content`
(lines 233-251) in statement order. -/
def analyzeContentEffect (parseDur : String → ℕ)
    (cluster : List String → Option (List ℕ)) (df : DFrame) : DFrame :=
  clusterTopicsEffect cluster (assignDurationSeconds parseDur
    (assignTitleLength df))

/-- The frame effect of `MetricsAnalyzer._analyze_temporal_patterns`
(lines 303-345): all work happens on `df.copy()`, so the input frame is
unchanged. -/
def temporalEffect (df : DFrame) : DFrame := df

/-- The effect of `MetricsAnalyzer._compare_with_competitors`
(lines 347-374) on the subject channel's frame: none — each comparison
frame is built fresh from the competitor records. -/
def compareWithCompetitorsEffect (df : DFrame) : DFrame := df

/-- A 1-row frame with only the three counter columns present. -/
def pureDemoDF : DFrame :=
  { nrows := 1, views := some [1], likes := some [1],
    comments_count := some [1] }

/-- A 1-row frame with every data column present. -/
def fullDF : DFrame :=
  { nrows := 1, views := some [1], likes := some [1],
    comments_count := some [1], title := some ["t"],
    engagement_rate := some [1] }

/-- C10 counterexample: the channel-metrics computation is not pure — on
a frame with the three counter columns it adds a `performance_score`
column to its input, so the input records do not stay unchanged. -/
theorem C10_counterexample :
    channelMetricsEffect pureDemoDF ≠ pureDemoDF
    ∧ (channelMetricsEffect pureDemoDF).performance_score = some [1]
    ∧ pureDemoDF.performance_score = none := by
  have hscore : (channelMetricsEffect pureDemoDF).performance_score
      = some [1] := by
    norm_num [channelMetricsEffect, bestVideoEffect, worstVideoEffect,
      pureDemoDF, zipWith3, safeMax, colMax, List.foldl]
  refine ⟨?_, hscore, rfl⟩
  intro h
  have := congrArg DFrame.performance_score h
  rw [hscore] at this
  simp [pureDemoDF] at this

/-- Each column fill touches only its own column, and leaves even that
column alone when it is already present. -/
theorem fillEngagementRate_proj (df : DFrame) :
    (fillEngagementRate df).views = df.views
    ∧ (fillEngagementRate df).likes = df.likes
    ∧ (fillEngagementRate df).comments_count = df.comments_count
    ∧ (fillEngagementRate df).title = df.title
    ∧ (df.engagement_rate.isSome = true →
        (fillEngagementRate df).engagement_rate = df.engagement_rate) := by
  unfold fillEngagementRate
  repeat' split <;> simp_all

theorem fillLikes_proj (df : DFrame) :
    (fillLikes df).views = df.views
    ∧ (df.likes.isSome = true → (fillLikes df).likes = df.likes)
    ∧ (fillLikes df).comments_count = df.comments_count
    ∧ (fillLikes df).title = df.title
    ∧ (fillLikes df).engagement_rate = df.engagement_rate := by
  unfold fillLikes
  split <;> simp_all

theorem fillComments_proj (df : DFrame) :
    (fillComments df).views = df.views
    ∧ (fillComments df).likes = df.likes
    ∧ (df.comments_count.isSome = true →
        (fillComments df).comments_count = df.comments_count)
    ∧ (fillComments df).title = df.title
    ∧ (fillComments df).engagement_rate = df.engagement_rate := by
  unfold fillComments
  split <;> simp_all

theorem fillViews_proj (df : DFrame) :
    (df.views.isSome = true → (fillViews df).views = df.views)
    ∧ (fillViews df).likes = df.likes
    ∧ (fillViews df).comments_count = df.comments_count
    ∧ (fillViews df).title = df.title
    ∧ (fillViews df).engagement_rate = df.engagement_rate := by
  unfold fillViews
  split <;> simp_all

theorem fillTitle_proj (df : DFrame) :
    (fillTitle df).views = df.views
    ∧ (fillTitle df).likes = df.likes
    ∧ (fillTitle df).comments_count = df.comments_count
    ∧ (df.title.isSome = true → (fillTitle df).title = df.title)
    ∧ (fillTitle df).engagement_rate = df.engagement_rate := by
  unfold fillTitle
  split <;> simp_all

/-- The best-item computation touches only `performance_score`. -/
theorem bestVideoEffect_proj (df : DFrame) :
    (bestVideoEffect df).views = df.views
    ∧ (bestVideoEffect df).likes = df.likes
    ∧ (bestVideoEffect df).comments_count = df.comments_count
    ∧ (bestVideoEffect df).title = df.title
    ∧ (bestVideoEffect df).engagement_rate = df.engagement_rate := by
  unfold bestVideoEffect
  repeat' split <;> simp_all

/-- The content-profile steps touch only `title_length`,
`duration_seconds` and `topic_cluster`. -/
theorem assignTitleLength_proj (df : DFrame) :
    (assignTitleLength df).views = df.views
    ∧ (assignTitleLength df).likes = df.likes
    ∧ (assignTitleLength df).comments_count = df.comments_count
    ∧ (assignTitleLength df).title = df.title
    ∧ (assignTitleLength df).engagement_rate = df.engagement_rate := by
  unfold assignTitleLength
  split <;> simp_all

theorem assignDurationSeconds_proj (parseDur : String → ℕ) (df : DFrame) :
    (assignDurationSeconds parseDur df).views = df.views
    ∧ (assignDurationSeconds parseDur df).likes = df.likes
    ∧ (assignDurationSeconds parseDur df).comments_count = df.comments_count
    ∧ (assignDurationSeconds parseDur df).title = df.title
    ∧ (assignDurationSeconds parseDur df).engagement_rate
        = df.engagement_rate := by
  unfold assignDurationSeconds
  split <;> simp_all

theorem clusterTopicsEffect_proj (cluster : List String → Option (List ℕ))
    (df : DFrame) :
    (clusterTopicsEffect cluster df).views = df.views
    ∧ (clusterTopicsEffect cluster df).likes = df.likes
    ∧ (clusterTopicsEffect cluster df).comments_count = df.comments_count
    ∧ (clusterTopicsEffect cluster df).title = df.title
    ∧ (clusterTopicsEffect cluster df).engagement_rate
        = df.engagement_rate := by
  unfold clusterTopicsEffect
  repeat' split <;> simp_all

/-- C10 amended: no Analysis Engine operation modifies the values of the
existing `views` / `likes` / `comments_count` / `title` /
`engagement_rate` columns, and the temporal-profile and comparison
operations leave the frame entirely unchanged; however, the
metrics-preparation, channel-metrics and content-profile computations add
derived columns (`engagement_rate`, `performance_score`, `title_length`,
`duration_seconds`, `topic_cluster`) in place on the input frame. -/
theorem C10_analysis_frame_effects_amended (parseDur : String → ℕ)
    (cluster : List String → Option (List ℕ)) (df : DFrame) :
    (df.views.isSome = true → (ensureMetricsColumns df).views = df.views)
    ∧ (df.likes.isSome = true → (ensureMetricsColumns df).likes = df.likes)
    ∧ (df.comments_count.isSome = true →
        (ensureMetricsColumns df).comments_count = df.comments_count)
    ∧ (df.title.isSome = true → (ensureMetricsColumns df).title = df.title)
    ∧ (df.engagement_rate.isSome = true →
        (ensureMetricsColumns df).engagement_rate = df.engagement_rate)
    ∧ (channelMetricsEffect df).views = df.views
    ∧ (channelMetricsEffect df).likes = df.likes
    ∧ (channelMetricsEffect df).comments_count = df.comments_count
    ∧ (channelMetricsEffect df).title = df.title
    ∧ (channelMetricsEffect df).engagement_rate = df.engagement_rate
    ∧ (analyzeContentEffect parseDur cluster df).views = df.views
    ∧ (analyzeContentEffect parseDur cluster df).likes = df.likes
    ∧ (analyzeContentEffect parseDur cluster df).comments_count
        = df.comments_count
    ∧ (analyzeContentEffect parseDur cluster df).title = df.title
    ∧ (analyzeContentEffect parseDur cluster df).engagement_rate
        = df.engagement_rate
    ∧ temporalEffect df = df
    ∧ compareWithCompetitorsEffect df = df := by
  obtain ⟨e1, e2, e3, e4, e5⟩ := fillEngagementRate_proj df
  obtain ⟨l1, l2, l3, l4, l5⟩ := fillLikes_proj (fillEngagementRate df)
  obtain ⟨c1, c2, c3, c4, c5⟩ :=
    fillComments_proj (fillLikes (fillEngagementRate df))
  obtain ⟨v1, v2, v3, v4, v5⟩ :=
    fillViews_proj (fillComments (fillLikes (fillEngagementRate df)))
  obtain ⟨t1, t2, t3, t4, t5⟩ :=
    fillTitle_proj (fillViews (fillComments (fillLikes (fillEngagementRate df))))
  obtain ⟨b1, b2, b3, b4, b5⟩ := bestVideoEffect_proj df
  obtain ⟨a1, a2, a3, a4, a5⟩ := assignTitleLength_proj df
  obtain ⟨d1, d2, d3, d4, d5⟩ :=
    assignDurationSeconds_proj parseDur (assignTitleLength df)
  obtain ⟨k1, k2, k3, k4, k5⟩ :=
    clusterTopicsEffect_proj cluster
      (assignDurationSeconds parseDur (assignTitleLength df))
  refine ⟨?_, ?_, ?_, ?_, ?_, ?_, ?_, ?_, ?_, ?_, ?_, ?_, ?_, ?_, ?_, rfl, rfl⟩
  · intro h
    have hv : (fillComments (fillLikes (fillEngagementRate df))).views
        = df.views := by rw [c1, l1, e1]
    unfold ensureMetricsColumns
    rw [t1, v1 (by rw [hv]; exact h), hv]
  · intro h
    have hl : (fillEngagementRate df).likes = df.likes := e2
    unfold ensureMetricsColumns
    rw [t2, v2, c2, l2 (by rw [hl]; exact h), hl]
  · intro h
    have hc : (fillLikes (fillEngagementRate df)).comments_count
        = df.comments_count := by rw [l3, e3]
    unfold ensureMetricsColumns
    rw [t3, v3, c3 (by rw [hc]; exact h), hc]
  · intro h
    have ht : (fillViews (fillComments (fillLikes (fillEngagementRate df)))).title
        = df.title := by rw [v4, c4, l4, e4]
    unfold ensureMetricsColumns
    rw [t4 (by rw [ht]; exact h), ht]
  · intro h
    unfold ensureMetricsColumns
    rw [t5, v5, c5, l5, e5 h]
  · exact b1
  · exact b2
  · exact b3
  · exact b4
  · exact b5
  · unfold analyzeContentEffect
    rw [k1, d1, a1]
  · unfold analyzeContentEffect
    rw [k2, d2, a2]
  · unfold analyzeContentEffect
    rw [k3, d3, a3]
  · unfold analyzeContentEffect
    rw [k4, d4, a4]
  · unfold analyzeContentEffect
    rw [k5, d5, a5]

/-- Closed instance of C10 (amended) at a frame with all columns present. -/
theorem C10_analysis_frame_effects_amended_witness :
    fullDF.views.isSome = true
    ∧ (ensureMetricsColumns fullDF).views = fullDF.views
    ∧ fullDF.engagement_rate.isSome = true
    ∧ (ensureMetricsColumns fullDF).engagement_rate = fullDF.engagement_rate
    ∧ (channelMetricsEffect fullDF).views = fullDF.views
    ∧ temporalEffect fullDF = fullDF :=
  ⟨rfl,
    (C10_analysis_frame_effects_amended (fun _ => 300) (fun _ => none) fullDF).1
      rfl,
    rfl,
    (C10_analysis_frame_effects_amended (fun _ => 300) (fun _ => none)
      fullDF).2.2.2.2.1 rfl,
    (C10_analysis_frame_effects_amended (fun _ => 300) (fun _ => none)
      fullDF).2.2.2.2.2.1,
    (C10_analysis_frame_effects_amended (fun _ => 300) (fun _ => none)
      fullDF).2.2.2.2.2.2.2.2.2.2.2.2.2.2.2.1⟩

end YTPipe
